import Mathlib

/-!
Verification development for the restaurant-sentiment review application
(`backend/routes/v1/reviews.py` and `backend/databricks_client.py`).

Modelling conventions used throughout this shallow embedding:

* A Python dict row coming back from the warehouse client is modelled as a
  structure whose optional fields are `Option`-typed; `none` stands for an
  absent key or a SQL `NULL` / Python `None` value, and Python's
  `row.get(key, default)` is modelled as `Option.getD`.
* Python floating point sentiment scores are modelled as rationals (`Rat`);
  the only comparisons performed on them (`abs score > 0.5`) are exact at
  the magnitudes involved.
* Python string truthiness (`if row.get(k) and ...`) for an `Option String`
  field is: the field is `some s` with `s ≠ ""`.
* Timestamps (`visit_datetime` / `created_at`) are carried as opaque
  `Option String` values; the application never inspects them.
* `hashlib.sha256(...).hexdigest()` is an external library call; the upsert
  builder is parameterised over the hex-digest function `sha256hex`, applied
  to exactly the string the source code hashes.
-/

/-- `'a' in s` / `'b' in s`: does `l` start with `pat`?  (char-list level) -/
def charsStartsWith : List Char → List Char → Bool
  | _, [] => true
  | [], _ :: _ => false
  | c :: cs, p :: ps => c == p && charsStartsWith cs ps

/-- Python substring containment `pat in l`, char-list level. -/
def charsContainsSub (pat : List Char) : List Char → Bool
  | [] => pat.isEmpty
  | c :: rest => charsStartsWith (c :: rest) pat || charsContainsSub pat rest

/-- Python `pat in s` on strings. -/
def strContainsSub (s pat : String) : Bool :=
  charsContainsSub pat.data s.data

/-- Python `s.lower()`: per-character lower-casing (the relevancy values it
is applied to are ASCII, where Python and Lean lower-casing agree). -/
def strToLower (s : String) : String :=
  String.mk (s.data.map Char.toLower)

/-- Python truthiness of an optional string (absent / None / empty are falsy). -/
def truthyStr : Option String → Bool
  | none => false
  | some s => s != ""

/-- `models.ReviewStatus` (`models.py`). -/
inductive ReviewStatus
  | random_sample
  | completed
  | recommended
deriving Repr, DecidableEq

/-- `models.ValidationDecision` (`models.py`). -/
inductive ValidationDecision
  | accept
  | override
  | skip
deriving Repr, DecidableEq

/-- `models.CategorySentiment` (`models.py`). Scores are Python floats,
modelled as rationals. -/
structure CategorySentiment where
  category : String
  category_sentiment_label : String
  category_sentiment_score : Rat
  subcategory : String
  subcategory_sentiment_label : String
  subcategory_sentiment_score : Rat
deriving Repr, DecidableEq

/-- `models.SentimentAnalysis` (`models.py`); the unused legacy `aspects`
field (always `None` in the code paths modelled here) is omitted. -/
structure SentimentAnalysis where
  irrelevant : Bool
  category_sentiments : Option (List CategorySentiment)
deriving Repr, DecidableEq

/-- `ReviewSummary.sentiment_analysis` is declared
`Union[SentimentAnalysis, dict]` in `models.py`; the dict alternative is only
ever read at `validate_review` via `sentiment_data.get("irrelevant", False)`,
so the dict case carries just that entry. -/
inductive SentimentUnion
  | asModel (sa : SentimentAnalysis)
  | asDict (irrelevant : Option Bool)
deriving Repr, DecidableEq

/-- The `isinstance(sentiment_data, dict)` branch of `validate_review`
(reviews.py lines 666-670 and 714-718): dict → `.get("irrelevant", False)`,
model object → attribute access. -/
def SentimentUnion.irrelevantVal : SentimentUnion → Bool
  | .asDict d => d.getD false
  | .asModel sa => sa.irrelevant

/-- `models.ReviewSummary` (`models.py`), restricted to the fields the
modelled code paths read or write. `overall_sentiment_score` is
`Optional[int]` in the pydantic model. -/
structure ReviewSummary where
  response_id : String
  question_label : String
  question_response : String
  relevant_comments : String
  profanity_check : Bool
  profane : Bool
  rewritten_comment : Option String
  sentiment_analysis : SentimentUnion
  created_at : Option String
  store_id : Option String
  status : ReviewStatus
  overall_sentiment_label : Option String
  overall_sentiment_score : Option Int
  category_sentiments : Option (List CategorySentiment)
deriving Repr, DecidableEq

/-- One flattened warehouse row, as produced by the `survey_details` SELECT
in `databricks_client.query_reviews_table` (one row per survey response ×
category × subcategory).  Field names are the SQL aliases / dict keys read
by `convert_flattened_rows_to_review`. -/
structure FlatRow where
  response_id : String
  question_label : Option String
  question_response : Option String
  response_relevancy : Option String
  profane : Option Bool
  rewritten_comment : Option String
  overall_sentiment_label : Option String
  overall_sentiment_score : Option Int
  comment_category : Option String
  category_sentiment_label : Option String
  category_sentiment_score : Option Rat
  comment_subcategory : Option String
  subcategory_sentiment_label : Option String
  subcategory_sentiment_score : Option Rat
  store_key : Option String
  visit_datetime : Option String
deriving Repr, DecidableEq

/-- The per-row body of the sentiment-building loop in
`convert_flattened_rows_to_review` (reviews.py lines 79-89):
`if row.get('comment_category') and row.get('comment_subcategory')` build a
`CategorySentiment` with `'Neutral'` / `0.0` defaults, else contribute
nothing. -/
def rowSentiment (row : FlatRow) : Option CategorySentiment :=
  match row.comment_category, row.comment_subcategory with
  | some c, some sc =>
    if c = "" ∨ sc = "" then none
    else some {
      category := c
      category_sentiment_label := row.category_sentiment_label.getD "Neutral"
      category_sentiment_score := row.category_sentiment_score.getD 0
      subcategory := sc
      subcategory_sentiment_label := row.subcategory_sentiment_label.getD "Neutral"
      subcategory_sentiment_score := row.subcategory_sentiment_score.getD 0 }
  | _, _ => none

/-- The extreme-score test of reviews.py lines 103-107; the Python literal
`0.5` is the exact rational 1/2. -/
def extremeScore (s : CategorySentiment) : Bool :=
  decide ((1 : Rat)/2 < |s.category_sentiment_score|) ||
  decide ((1 : Rat)/2 < |s.subcategory_sentiment_score|)

/-- `convert_flattened_rows_to_review` (reviews.py lines 62-128).
Errors are the `ValueError`s raised by the function (surfaced as an
HTTP 500 by the enclosing try/except); the first row whose `response_id`
differs from the first row's triggers the mixed-ids error, mirroring the
Python `for` loop's first offending row. -/
def convert_flattened_rows_to_review : List FlatRow → Except String ReviewSummary
  | [] => Except.error "No rows provided"
  | first_row :: rest =>
    let response_id := first_row.response_id
    match (first_row :: rest).find? (fun row => row.response_id != response_id) with
    | some bad =>
      Except.error ("Mixed response IDs in rows: " ++ response_id ++ " vs " ++ bad.response_id)
    | none =>
      let category_sentiments := (first_row :: rest).filterMap rowSentiment
      let response_relevancy := strToLower (first_row.response_relevancy.getD "")
      let is_irrelevant :=
        strContainsSub response_relevancy "irrelevant" ||
        strContainsSub response_relevancy "nonsense"
      let flagged_for_review := category_sentiments.any extremeScore
      Except.ok {
        response_id := response_id
        question_label := first_row.question_label.getD "COMMENT"
        question_response := first_row.question_response.getD ""
        relevant_comments := first_row.question_response.getD ""
        profanity_check := true
        profane := first_row.profane.getD false
        rewritten_comment := some (first_row.rewritten_comment.getD "")
        sentiment_analysis := SentimentUnion.asModel
          { irrelevant := is_irrelevant, category_sentiments := some category_sentiments }
        created_at := first_row.visit_datetime
        store_id := first_row.store_key
        status := if flagged_for_review then ReviewStatus.recommended else ReviewStatus.random_sample
        overall_sentiment_label := first_row.overall_sentiment_label
        overall_sentiment_score := first_row.overall_sentiment_score
        category_sentiments := some category_sentiments }

/-- The row of the evaluation-table SELECT consumed by
`convert_completed_review_to_summary` (reviews.py lines 135-183), restricted
to the keys that function reads.  `human_eval_category_sentiments` is a JSON
text column; its `json.loads` decoding is modelled by `CSJsonField` below. -/
structure CSJson where
  category : Option String
  category_sentiment_label : Option String
  category_sentiment_score : Option Rat
  subcategory : Option String
  subcategory_sentiment_label : Option String
  subcategory_sentiment_score : Option Rat
deriving Repr, DecidableEq

/-- State of the `human_eval_category_sentiments` JSON column as seen by
`convert_completed_review_to_summary`: column falsy (NULL or empty string),
`json.loads`/shape failure (caught, list reset to `[]`), or a decoded list
of dicts. -/
inductive CSJsonField
  | absent
  | malformed
  | parsed (l : List CSJson)
deriving Repr, DecidableEq

/-- Evaluation-table row for `convert_completed_review_to_summary`
(aliases from `query_completed_reviews` / the eval query in
`get_review_detail`). -/
structure EvalQueryRow where
  response_id : String
  question_label : Option String
  question_response : Option String
  profane : Option Bool
  rewritten_comment : Option String
  irrelevant : Option Bool
  human_eval_overall_sentiment_label : Option String
  human_eval_overall_sentiment_score : Option Int
  human_eval_category_sentiments : CSJsonField
deriving Repr, DecidableEq

/-- Body of the per-entry loop decoding one JSON dict into a
`CategorySentiment` (reviews.py lines 146-155). -/
def csOfJson (cs_data : CSJson) : CategorySentiment :=
  { category := cs_data.category.getD ""
    category_sentiment_label := cs_data.category_sentiment_label.getD "Neutral"
    category_sentiment_score := cs_data.category_sentiment_score.getD 0
    subcategory := cs_data.subcategory.getD ""
    subcategory_sentiment_label := cs_data.subcategory_sentiment_label.getD "Neutral"
    subcategory_sentiment_score := cs_data.subcategory_sentiment_score.getD 0 }

/-- `convert_completed_review_to_summary` (reviews.py lines 135-183).
With a typed row the enclosing try/except never fires, so the function is
total. -/
def convert_completed_review_to_summary (db_row : EvalQueryRow) : ReviewSummary :=
  let category_sentiments :=
    match db_row.human_eval_category_sentiments with
    | .absent => []
    | .malformed => []
    | .parsed l => l.map csOfJson
  { response_id := db_row.response_id
    question_label := db_row.question_label.getD "COMMENT"
    question_response := db_row.question_response.getD ""
    relevant_comments := db_row.question_response.getD ""
    profanity_check := true
    profane := db_row.profane.getD false
    rewritten_comment := some (db_row.rewritten_comment.getD "")
    sentiment_analysis := SentimentUnion.asModel
      { irrelevant := db_row.irrelevant.getD false, category_sentiments := some category_sentiments }
    created_at := none
    store_id := none
    status := ReviewStatus.completed
    overall_sentiment_label := db_row.human_eval_overall_sentiment_label
    overall_sentiment_score := db_row.human_eval_overall_sentiment_score
    category_sentiments := some category_sentiments }

/-- The `human_eval_data` dict assembled by `validate_review`
(reviews.py lines 639-651 and the decision branches).  The always-empty
legacy `aspects` entry is omitted. -/
structure HumanEvalData where
  question_label : Option String
  question_response : Option String
  profane : Option Bool
  rewritten_comment : Option String
  irrelevant : Option Bool
  overall_sentiment_label : Option String
  overall_sentiment_score : Option Int
  category_sentiments : List CategorySentiment
  store_id : Option String
  visit_datetime : Option String
deriving Repr, DecidableEq

/-- The `machine_eval_data` dict assembled by `validate_review`
(reviews.py lines 654-661). -/
structure MachineEvalData where
  profane : Bool
  rewritten_comment : Option String
  irrelevant : Bool
  overall_sentiment_label : Option String
  overall_sentiment_score : Option Int
  category_sentiments : List CategorySentiment
deriving Repr, DecidableEq

/-- The `updated_labels` dict of `models.ValidationRequest`
(`Optional[Dict[str, Any]]`), restricted to the keys `validate_review`
reads.  The nested `sentiment_analysis` entry is itself a dict from which
only `irrelevant` is read. -/
structure UpdatedLabels where
  sentiment_analysis_irrelevant : Option (Option Bool)
  profane : Option Bool
  rewritten_comment : Option String
  overall_sentiment_label : Option String
  overall_sentiment_score : Option Int
  category_sentiments : Option (List CategorySentiment)
deriving Repr, DecidableEq

/-- `models.ValidationRequest` (`models.py`). -/
structure ValidationRequest where
  updated_labels : Option UpdatedLabels
  decision : ValidationDecision
  corrections_made : Option Int
deriving Repr, DecidableEq

/-- The decision-independent skeleton of `human_eval_data`
(reviews.py lines 639-651): shared fields come from the displayed review,
the evaluation fields start out `None`/empty. -/
def baseHumanEvalData (original_review : ReviewSummary) : HumanEvalData :=
  { question_label := some original_review.question_label
    question_response := some original_review.question_response
    profane := none
    rewritten_comment := none
    irrelevant := none
    overall_sentiment_label := none
    overall_sentiment_score := none
    category_sentiments := []
    store_id := original_review.store_id
    visit_datetime := original_review.created_at }

/-- `machine_eval_data` (reviews.py lines 654-661).  Note the source
hardcodes `"irrelevant": False` ("Assume original was not marked
irrelevant") instead of copying the displayed summary's flag. -/
def machineEvalOf (original_review : ReviewSummary) : MachineEvalData :=
  { profane := original_review.profane
    rewritten_comment := original_review.rewritten_comment
    irrelevant := false
    overall_sentiment_label := original_review.overall_sentiment_label
    overall_sentiment_score := original_review.overall_sentiment_score
    category_sentiments := original_review.category_sentiments.getD [] }

/-- The `decision == "accept"` branch (reviews.py lines 664-676). -/
def acceptBranch (original_review : ReviewSummary) (h : HumanEvalData) : HumanEvalData :=
  { h with
    irrelevant := some original_review.sentiment_analysis.irrelevantVal
    profane := some original_review.profane
    rewritten_comment := original_review.rewritten_comment
    overall_sentiment_label := original_review.overall_sentiment_label
    overall_sentiment_score := original_review.overall_sentiment_score
    category_sentiments := original_review.category_sentiments.getD [] }

/-- The `decision == "override"` branch with `updated_labels` supplied
(reviews.py lines 680-710): field-by-field `.get` fallback to the displayed
summary; the trailing dict-conversion loop over `category_sentiments` is the
identity at this typed level (`if category_sentiments:` on an empty list
also yields `[]`). -/
def overrideBranch (original_review : ReviewSummary) (ul : UpdatedLabels)
    (h : HumanEvalData) : HumanEvalData :=
  { h with
    irrelevant := some (((ul.sentiment_analysis_irrelevant.getD none)).getD false)
    profane := some (ul.profane.getD original_review.profane)
    rewritten_comment :=
      match ul.rewritten_comment with
      | some v => some v
      | none => original_review.rewritten_comment
    overall_sentiment_label :=
      match ul.overall_sentiment_label with
      | some v => some v
      | none => original_review.overall_sentiment_label
    overall_sentiment_score :=
      match ul.overall_sentiment_score with
      | some v => some v
      | none => original_review.overall_sentiment_score
    category_sentiments := ul.category_sentiments.getD (original_review.category_sentiments.getD []) }

/-- The `decision == "override"` branch with NO `updated_labels`
(reviews.py lines 712-724); the source duplicates the accept-branch
assignments verbatim, and so does this embedding. -/
def overrideNoLabelsBranch (original_review : ReviewSummary) (h : HumanEvalData) : HumanEvalData :=
  { h with
    irrelevant := some original_review.sentiment_analysis.irrelevantVal
    profane := some original_review.profane
    rewritten_comment := original_review.rewritten_comment
    overall_sentiment_label := original_review.overall_sentiment_label
    overall_sentiment_score := original_review.overall_sentiment_score
    category_sentiments := original_review.category_sentiments.getD [] }

/-- The data-preparation phase of `validate_review` (reviews.py lines
634-733): `none` exactly when the decision is `skip` (early return, nothing
written); otherwise the `(human_eval_data, machine_eval_data)` pair passed
to `write_human_evaluation`. -/
def prepare_validation_data (original_review : ReviewSummary)
    (validation : ValidationRequest) : Option (HumanEvalData × MachineEvalData) :=
  let base := baseHumanEvalData original_review
  let machine := machineEvalOf original_review
  match validation.decision with
  | .accept => some (acceptBranch original_review base, machine)
  | .override =>
    match validation.updated_labels with
    | some ul => some (overrideBranch original_review ul base, machine)
    | none => some (overrideNoLabelsBranch original_review base, machine)
  | .skip => none

/-- The single quote character (code point 39), written without a literal to
keep the development free of quote characters. -/
def squoteChar : Char := Char.ofNat 39

/-- `value.replace("'", "''")` at char-list level: the pattern is a single
character, so Python's non-overlapping replace is exactly this per-character
expansion. -/
def escape_single_quotes_chars : List Char → List Char
  | [] => []
  | c :: cs =>
    if c = squoteChar then c :: c :: escape_single_quotes_chars cs
    else c :: escape_single_quotes_chars cs

/-- `value.replace("'", "''")` on strings (databricks_client.py line 566). -/
def escape_single_quotes (s : String) : String :=
  String.mk (escape_single_quotes_chars s.data)

/-- A Python value reaching `_format_sql_value`.  Floats are not modelled:
every numeric value the application passes to the formatter has been through
an `int(...)` cast, so the numeric case carries an `Int`.  `vOther` stands
for any value of a type outside `(NoneType, bool, str, int, float)` (e.g.
the `datetime` passed for `visit_datetime`). -/
inductive PyValue
  | vNone
  | vBool (b : Bool)
  | vStr (s : String)
  | vInt (n : Int)
  | vOther
deriving Repr, DecidableEq

/-- `_format_sql_value` (databricks_client.py lines 558-571).  The
`isinstance(value, bool)` test precedes the numeric test, as in the source
(Python `bool` is an `int` subclass, so the order matters there). -/
def format_sql_value : PyValue → String
  | .vNone => "NULL"
  | .vBool b => if b then "TRUE" else "FALSE"
  | .vStr s => String.singleton squoteChar ++ escape_single_quotes s ++ String.singleton squoteChar
  | .vInt n => toString n
  | .vOther => "NULL"

/-- The source row built by the MERGE statement of
`write_human_evaluation_optimized` (databricks_client.py lines 427-462),
with each column holding the Python value before `_format_sql_value`
rendering.  The two `*_category_sentiments` columns hold the list that the
source serialises with `json.dumps`; the seven always-`NULL`
`human_eval_*` aspect columns and the `CURRENT_TIMESTAMP()` columns are not
modelled. -/
structure UpsertRow where
  evaluation_hash_key : String
  survey_response_id : String
  question_label : Option String
  question_response : Option String
  response_relevancy : String
  overall_sentiment_label : Option String
  overall_sentiment_score : Option Int
  category_subcategory_list : String
  human_eval_profane : Option Bool
  human_eval_rewritten_comment : Option String
  human_eval_irrelevant : Option Bool
  human_eval_overall_sentiment_label : Option String
  human_eval_overall_sentiment_score : Option Int
  human_eval_category_sentiments : List CategorySentiment
  machine_eval_profane : Bool
  machine_eval_rewritten_comment : Option String
  machine_eval_irrelevant : Bool
  machine_eval_overall_sentiment_label : Option String
  machine_eval_overall_sentiment_score : Option Int
  machine_eval_category_sentiments : List CategorySentiment
  store_key : Option String
  visit_datetime : Option String
  evaluation_model : String
deriving Repr, DecidableEq

/-- The `category:subcategory` display column (databricks_client.py lines
383-399): one `f"{category}:{subcategory}"` entry per sentiment whose
category and subcategory are both truthy, joined by `", "` (the
`if category_subcategory_pairs else ""` fallback coincides with
`String.intercalate` on the empty list). -/
def category_subcategory_list_of (category_sentiments : List CategorySentiment) : String :=
  String.intercalate ", "
    (category_sentiments.filterMap (fun cs =>
      if cs.category = "" ∨ cs.subcategory = "" then none
      else some (cs.category ++ ":" ++ cs.subcategory)))

/-- The pure row-construction core of `write_human_evaluation_optimized`
(databricks_client.py lines 339-430): hash key, write-back relevancy
derivation and the source-row column values of the MERGE statement.
`sha256hex` stands for `hashlib.sha256(...).hexdigest()` and is applied to
exactly the string the source hashes (`f"{survey_response_id}_{evaluation_model}"`).
The `int(...)` casts on the sentiment scores are the identity here because
the scores are already `Option Int`. -/
def write_human_evaluation_optimized_build (sha256hex : String → String)
    (survey_response_id : String)
    (human_eval_data : HumanEvalData)
    (machine_eval_data : Option MachineEvalData)
    (evaluation_model : String) : UpsertRow :=
  let evaluation_hash_key := sha256hex (survey_response_id ++ "_" ++ evaluation_model)
  let response_relevancy :=
    if human_eval_data.irrelevant.getD false then "nonsense or irrelevant"
    else if human_eval_data.profane.getD false then "profane but useful"
    else "useful"
  { evaluation_hash_key := evaluation_hash_key
    survey_response_id := survey_response_id
    question_label := some (human_eval_data.question_label.getD "COMMENT")
    question_response := human_eval_data.question_response
    response_relevancy := response_relevancy
    overall_sentiment_label := human_eval_data.overall_sentiment_label
    overall_sentiment_score := human_eval_data.overall_sentiment_score
    category_subcategory_list := category_subcategory_list_of human_eval_data.category_sentiments
    human_eval_profane := some (human_eval_data.profane.getD false)
    human_eval_rewritten_comment := human_eval_data.rewritten_comment
    human_eval_irrelevant := some (human_eval_data.irrelevant.getD false)
    human_eval_overall_sentiment_label := human_eval_data.overall_sentiment_label
    human_eval_overall_sentiment_score := human_eval_data.overall_sentiment_score
    human_eval_category_sentiments := human_eval_data.category_sentiments
    machine_eval_profane := (machine_eval_data.map MachineEvalData.profane).getD false
    machine_eval_rewritten_comment := machine_eval_data.bind MachineEvalData.rewritten_comment
    machine_eval_irrelevant := (machine_eval_data.map MachineEvalData.irrelevant).getD false
    machine_eval_overall_sentiment_label :=
      machine_eval_data.bind MachineEvalData.overall_sentiment_label
    machine_eval_overall_sentiment_score :=
      machine_eval_data.bind MachineEvalData.overall_sentiment_score
    machine_eval_category_sentiments :=
      (machine_eval_data.map MachineEvalData.category_sentiments).getD []
    store_key := human_eval_data.store_id
    visit_datetime := human_eval_data.visit_datetime
    evaluation_model := evaluation_model }

/-- The `WHEN MATCHED THEN UPDATE SET` column list of the MERGE statement
(databricks_client.py lines 464-485): human-eval and derived columns are
overwritten, the hash key, ids, question columns, machine-eval snapshot and
store/visit columns of the existing row are retained. -/
def mergeUpdate (target source : UpsertRow) : UpsertRow :=
  { target with
    response_relevancy := source.response_relevancy
    overall_sentiment_label := source.overall_sentiment_label
    overall_sentiment_score := source.overall_sentiment_score
    category_subcategory_list := source.category_subcategory_list
    human_eval_profane := source.human_eval_profane
    human_eval_rewritten_comment := source.human_eval_rewritten_comment
    human_eval_irrelevant := source.human_eval_irrelevant
    human_eval_overall_sentiment_label := source.human_eval_overall_sentiment_label
    human_eval_overall_sentiment_score := source.human_eval_overall_sentiment_score
    human_eval_category_sentiments := source.human_eval_category_sentiments
    evaluation_model := source.evaluation_model }

/-- The warehouse MERGE semantics with join predicate
`target.survey_response_id = source.survey_response_id`
(databricks_client.py lines 428-508), on a table modelled as a row list:
matched rows are updated in place, otherwise the row is inserted. -/
def mergeUpsert (table : List UpsertRow) (source : UpsertRow) : List UpsertRow :=
  if table.any (fun t => t.survey_response_id == source.survey_response_id) then
    table.map (fun t =>
      if t.survey_response_id == source.survey_response_id then mergeUpdate t source else t)
  else table ++ [source]

/-- The response body of `validate_review`. -/
structure ValidateResponse where
  success : Bool
  review_id : String
  decision : String
  message : String
deriving Repr, DecidableEq

def ValidationDecision.asString : ValidationDecision → String
  | .accept => "accept"
  | .override => "override"
  | .skip => "skip"

/-- State transition of one `validate_review` call against the evaluation
table (reviews.py lines 613-778): prepare the evaluation data (early
success return, no write, when the decision is `skip`), otherwise build the
upsert row — through the `write_human_evaluation` legacy wrapper, whose
`evaluation_model` default is `"human_validation_v1_legacy"`
(databricks_client.py lines 541-556) — and MERGE it into the table. -/
def validate_step (sha256hex : String → String) (table : List UpsertRow)
    (review_id : String) (original_review : ReviewSummary)
    (validation : ValidationRequest) : ValidateResponse × List UpsertRow :=
  match prepare_validation_data original_review validation with
  | none =>
    ({ success := true
       review_id := review_id
       decision := validation.decision.asString
       message := "Review " ++ review_id ++ " has been skipped (no evaluation written)" },
     table)
  | some (human_eval_data, machine_eval_data) =>
    let row := write_human_evaluation_optimized_build sha256hex review_id
      human_eval_data (some machine_eval_data) "human_validation_v1_legacy"
    ({ success := true
       review_id := review_id
       decision := validation.decision.asString
       message := "Review " ++ review_id ++ " has been "
         ++ validation.decision.asString ++ "ed and saved to evaluation table" },
     mergeUpsert table row)

/-! ### Example data used by witnesses and counterexamples -/

/-- A flattened row with every optional column NULL, used as a template. -/
def blankRow : FlatRow :=
  { response_id := "resp-1"
    question_label := none
    question_response := none
    response_relevancy := none
    profane := none
    rewritten_comment := none
    overall_sentiment_label := none
    overall_sentiment_score := none
    comment_category := none
    category_sentiment_label := none
    category_sentiment_score := none
    comment_subcategory := none
    subcategory_sentiment_label := none
    subcategory_sentiment_score := none
    store_key := none
    visit_datetime := none }

/-- A `HumanEvalData` with every field empty, used as a template. -/
def blankHumanEval : HumanEvalData :=
  { question_label := none
    question_response := none
    profane := none
    rewritten_comment := none
    irrelevant := none
    overall_sentiment_label := none
    overall_sentiment_score := none
    category_sentiments := []
    store_id := none
    visit_datetime := none }

/-! ### Helper lemmas -/

lemma find?_mixed_eq_none (first : FlatRow) (rest : List FlatRow)
    (hsame : ∀ r ∈ first :: rest, r.response_id = first.response_id) :
    (first :: rest).find? (fun row => row.response_id != first.response_id) = none := by
  rw [List.find?_eq_none]
  intro x hx
  simp [hsame x hx]

/-- Reduction of the converter on a well-formed (same-response-id) group to
its explicit result. -/
lemma convert_cons_eq (first : FlatRow) (rest : List FlatRow)
    (hsame : ∀ r ∈ first :: rest, r.response_id = first.response_id) :
    convert_flattened_rows_to_review (first :: rest) = Except.ok {
      response_id := first.response_id
      question_label := first.question_label.getD "COMMENT"
      question_response := first.question_response.getD ""
      relevant_comments := first.question_response.getD ""
      profanity_check := true
      profane := first.profane.getD false
      rewritten_comment := some (first.rewritten_comment.getD "")
      sentiment_analysis := SentimentUnion.asModel
        { irrelevant := strContainsSub (strToLower (first.response_relevancy.getD "")) "irrelevant"
            || strContainsSub (strToLower (first.response_relevancy.getD "")) "nonsense"
          category_sentiments := some ((first :: rest).filterMap rowSentiment) }
      created_at := first.visit_datetime
      store_id := first.store_key
      status := if ((first :: rest).filterMap rowSentiment).any extremeScore
        then ReviewStatus.recommended else ReviewStatus.random_sample
      overall_sentiment_label := first.overall_sentiment_label
      overall_sentiment_score := first.overall_sentiment_score
      category_sentiments := some ((first :: rest).filterMap rowSentiment) } := by
  simp only [convert_flattened_rows_to_review, find?_mixed_eq_none first rest hsame]

lemma rowSentiment_isSome (row : FlatRow) :
    (rowSentiment row).isSome
      = (truthyStr row.comment_category && truthyStr row.comment_subcategory) := by
  match hc : row.comment_category, hs : row.comment_subcategory with
  | none, none => simp [rowSentiment, truthyStr, hc, hs]
  | none, some sc => simp [rowSentiment, truthyStr, hc, hs]
  | some c, none => simp [rowSentiment, truthyStr, hc, hs]
  | some c, some sc =>
    by_cases h1 : c = "" <;> by_cases h2 : sc = "" <;>
      simp [rowSentiment, truthyStr, hc, hs, h1, h2]

lemma length_filterMap_isSome {α β : Type} (f : α → Option β) :
    ∀ l : List α, (l.filterMap f).length = (l.filter (fun x => (f x).isSome)).length
  | [] => rfl
  | a :: l => by
    cases hfa : f a <;>
      simp [List.filterMap_cons, List.filter_cons, hfa, length_filterMap_isSome f l]

lemma any_extreme_iff (l : List CategorySentiment) :
    (l.any extremeScore = true)
      ↔ ∃ cs ∈ l, (1 : Rat)/2 < |cs.category_sentiment_score|
          ∨ (1 : Rat)/2 < |cs.subcategory_sentiment_score| := by
  simp [List.any_eq_true, extremeScore]

/-! ### Claim theorems -/

/-- C4: the evaluation hash key is a content hash of the response id
concatenated with the evaluation model version only — it does not depend on
any human-eval or machine-eval field, so any two invocations of the upsert
builder with the same `(response_id, model_version)` pair produce identical
hash keys. -/
theorem hash_key_depends_only_on_id_and_model
    (sha256hex : String → String) (survey_response_id evaluation_model : String)
    (h1 h2 : HumanEvalData) (m1 m2 : Option MachineEvalData) :
    (write_human_evaluation_optimized_build sha256hex survey_response_id h1 m1
        evaluation_model).evaluation_hash_key
      = (write_human_evaluation_optimized_build sha256hex survey_response_id h2 m2
          evaluation_model).evaluation_hash_key
    ∧ (write_human_evaluation_optimized_build sha256hex survey_response_id h1 m1
        evaluation_model).evaluation_hash_key
      = sha256hex (survey_response_id ++ "_" ++ evaluation_model) :=
  ⟨rfl, rfl⟩

/-- C5: the written `response_relevancy` is "nonsense or irrelevant" when
the human-eval irrelevant flag is truthy; otherwise "profane but useful"
when the profane flag is truthy; otherwise "useful" (in particular when
both flags are absent). -/
theorem write_back_relevancy_derivation
    (sha256hex : String → String) (survey_response_id evaluation_model : String)
    (h : HumanEvalData) (m : Option MachineEvalData) :
    (h.irrelevant.getD false = true →
      (write_human_evaluation_optimized_build sha256hex survey_response_id h m
        evaluation_model).response_relevancy = "nonsense or irrelevant")
    ∧ (h.irrelevant.getD false = false → h.profane.getD false = true →
      (write_human_evaluation_optimized_build sha256hex survey_response_id h m
        evaluation_model).response_relevancy = "profane but useful")
    ∧ (h.irrelevant.getD false = false → h.profane.getD false = false →
      (write_human_evaluation_optimized_build sha256hex survey_response_id h m
        evaluation_model).response_relevancy = "useful") := by
  refine ⟨fun hi => ?_, fun hi hp => ?_, fun hi hp => ?_⟩ <;>
    simp [write_human_evaluation_optimized_build, hi]
  · simp [hp]
  · simp [hp]

theorem write_back_relevancy_derivation_witness :
    ((write_human_evaluation_optimized_build (fun s => s) "resp-1"
        { blankHumanEval with irrelevant := some true, profane := some true } none
        "human_validation_v1_legacy").response_relevancy = "nonsense or irrelevant")
    ∧ ((write_human_evaluation_optimized_build (fun s => s) "resp-1"
        { blankHumanEval with profane := some true } none
        "human_validation_v1_legacy").response_relevancy = "profane but useful")
    ∧ ((write_human_evaluation_optimized_build (fun s => s) "resp-1"
        blankHumanEval none
        "human_validation_v1_legacy").response_relevancy = "useful") :=
  ⟨(write_back_relevancy_derivation (fun s => s) "resp-1" "human_validation_v1_legacy"
      { blankHumanEval with irrelevant := some true, profane := some true } none).1 (by decide),
   (write_back_relevancy_derivation (fun s => s) "resp-1" "human_validation_v1_legacy"
      { blankHumanEval with profane := some true } none).2.1 (by decide) (by decide),
   (write_back_relevancy_derivation (fun s => s) "resp-1" "human_validation_v1_legacy"
      blankHumanEval none).2.2 (by decide) (by decide)⟩

/-- A displayed review whose sentiment analysis marks it irrelevant; used to
refute the claim that an `accept` decision snapshots the displayed values
into the machine-eval side unchanged. -/
def exSummaryC6 : ReviewSummary :=
  { response_id := "resp-c6"
    question_label := "COMMENT"
    question_response := "asdf qwerty"
    relevant_comments := "asdf qwerty"
    profanity_check := true
    profane := false
    rewritten_comment := some ""
    sentiment_analysis := SentimentUnion.asModel
      { irrelevant := true, category_sentiments := some [] }
    created_at := none
    store_id := none
    status := ReviewStatus.random_sample
    overall_sentiment_label := some "Neutral"
    overall_sentiment_score := some 0
    category_sentiments := some [] }

/-- C6 counterexample: for the displayed summary `exSummaryC6` (whose
`irrelevant` flag is true), an `accept` validation produces a machine-eval
snapshot whose `irrelevant` field is `false` — not the displayed value — so
the machine-eval side does not receive the same values as the human-eval
side. -/
theorem accept_machine_snapshot_counterexample :
    exSummaryC6.sentiment_analysis.irrelevantVal = true
    ∧ (prepare_validation_data exSummaryC6
        { updated_labels := none, decision := ValidationDecision.accept,
          corrections_made := some 0 }).map (fun p => p.1.irrelevant) = some (some true)
    ∧ (prepare_validation_data exSummaryC6
        { updated_labels := none, decision := ValidationDecision.accept,
          corrections_made := some 0 }).map (fun p => p.2.irrelevant) = some false :=
  ⟨rfl, rfl, rfl⟩

/-- C6 amended: on `accept`, every human-eval field written to the upsert
equals the corresponding field of the displayed summary (an absent category
sentiment list is written as the empty list), and the machine-eval snapshot
receives those same values too — EXCEPT its `irrelevant` field, which the
code hardcodes to `false` regardless of the displayed summary. -/
theorem accept_copies_displayed_summary
    (original : ReviewSummary) (ul : Option UpdatedLabels) (c : Option Int) :
    ∃ h m, prepare_validation_data original
        { updated_labels := ul, decision := ValidationDecision.accept,
          corrections_made := c } = some (h, m)
      ∧ h.irrelevant = some original.sentiment_analysis.irrelevantVal
      ∧ h.profane = some original.profane
      ∧ h.rewritten_comment = original.rewritten_comment
      ∧ h.overall_sentiment_label = original.overall_sentiment_label
      ∧ h.overall_sentiment_score = original.overall_sentiment_score
      ∧ h.category_sentiments = original.category_sentiments.getD []
      ∧ m.profane = original.profane
      ∧ m.rewritten_comment = original.rewritten_comment
      ∧ m.overall_sentiment_label = original.overall_sentiment_label
      ∧ m.overall_sentiment_score = original.overall_sentiment_score
      ∧ m.category_sentiments = original.category_sentiments.getD []
      ∧ m.irrelevant = false :=
  ⟨_, _, rfl, rfl, rfl, rfl, rfl, rfl, rfl, rfl, rfl, rfl, rfl, rfl, rfl⟩

/-- C7: a validate request with decision `skip` returns a success response,
the data-preparation phase yields nothing for the upsert builder, and the
evaluation table is left unchanged. -/
theorem skip_writes_nothing (sha256hex : String → String) (table : List UpsertRow)
    (review_id : String) (original_review : ReviewSummary)
    (ul : Option UpdatedLabels) (c : Option Int) :
    (validate_step sha256hex table review_id original_review
        { updated_labels := ul, decision := ValidationDecision.skip,
          corrections_made := c }).2 = table
    ∧ (validate_step sha256hex table review_id original_review
        { updated_labels := ul, decision := ValidationDecision.skip,
          corrections_made := c }).1.success = true
    ∧ prepare_validation_data original_review
        { updated_labels := ul, decision := ValidationDecision.skip,
          corrections_made := c } = none :=
  ⟨rfl, rfl, rfl⟩

/-- C10: a validate request with decision `override` and no `updated_labels`
prepares exactly the same human-eval data and machine-eval snapshot as a
request with decision `accept` — the two code paths agree at the
upsert-builder input. -/
theorem override_without_labels_equals_accept
    (original : ReviewSummary) (ul : Option UpdatedLabels) (c1 c2 : Option Int) :
    prepare_validation_data original
        { updated_labels := none, decision := ValidationDecision.override,
          corrections_made := c1 }
      = prepare_validation_data original
        { updated_labels := ul, decision := ValidationDecision.accept,
          corrections_made := c2 } := by
  simp [prepare_validation_data, overrideNoLabelsBranch, acceptBranch]

/-- C9: the SQL value formatter is NULL-safe and escaping-correct: `None`
maps to the literal `NULL` (not an empty string), booleans map to
TRUE/FALSE, integers map to their decimal text, and a string maps to a
single-quoted literal built by an escaping transform that doubles each
single-quote character and leaves every other character unchanged
(characterised by the homomorphism and singleton equations below). -/
theorem format_sql_value_spec :
    (format_sql_value PyValue.vNone = "NULL" ∧ format_sql_value PyValue.vNone ≠ "")
    ∧ (∀ b, format_sql_value (PyValue.vBool b) = if b then "TRUE" else "FALSE")
    ∧ (∀ n : Int, format_sql_value (PyValue.vInt n) = toString n)
    ∧ (∀ s, format_sql_value (PyValue.vStr s)
        = String.singleton squoteChar ++ escape_single_quotes s ++ String.singleton squoteChar)
    ∧ (∀ l1 l2 : List Char, escape_single_quotes_chars (l1 ++ l2)
        = escape_single_quotes_chars l1 ++ escape_single_quotes_chars l2)
    ∧ escape_single_quotes_chars [squoteChar] = [squoteChar, squoteChar]
    ∧ (∀ c : Char, c ≠ squoteChar → escape_single_quotes_chars [c] = [c]) := by
  refine ⟨⟨rfl, by decide⟩, fun b => rfl, fun n => rfl, fun s => rfl, ?_,
    by simp [escape_single_quotes_chars], fun c hc => by simp [escape_single_quotes_chars, hc]⟩
  intro l1 l2
  induction l1 with
  | nil => rfl
  | cons c cs ih =>
    by_cases hc : c = squoteChar <;> simp [escape_single_quotes_chars, hc, ih]

theorem format_sql_value_spec_witness :
    escape_single_quotes_chars [Char.ofNat 97] = [Char.ofNat 97] :=
  format_sql_value_spec.2.2.2.2.2.2 (Char.ofNat 97) (by decide)

/-- C1: converting a non-empty same-response-id group yields exactly one
`ReviewSummary` whose category-sentiment list is the in-order image of the
rows through the per-row builder; a row contributes an entry exactly when
both its category and subcategory are truthy, the entry count equals the
number of such rows, and the shared fields come from the first row. -/
theorem grouped_conversion_shape (first : FlatRow) (rest : List FlatRow)
    (hsame : ∀ r ∈ first :: rest, r.response_id = first.response_id) :
    ∃ s, convert_flattened_rows_to_review (first :: rest) = Except.ok s
      ∧ s.category_sentiments = some ((first :: rest).filterMap rowSentiment)
      ∧ (∀ row : FlatRow, (rowSentiment row).isSome
          = (truthyStr row.comment_category && truthyStr row.comment_subcategory))
      ∧ ((first :: rest).filterMap rowSentiment).length
          = ((first :: rest).filter
              (fun row => truthyStr row.comment_category
                && truthyStr row.comment_subcategory)).length
      ∧ s.response_id = first.response_id
      ∧ s.question_label = first.question_label.getD "COMMENT"
      ∧ s.question_response = first.question_response.getD ""
      ∧ s.profane = first.profane.getD false
      ∧ s.store_id = first.store_key
      ∧ s.created_at = first.visit_datetime := by
  refine ⟨_, convert_cons_eq first rest hsame, rfl, rowSentiment_isSome, ?_,
    rfl, rfl, rfl, rfl, rfl, rfl⟩
  rw [length_filterMap_isSome rowSentiment]
  congr 1
  exact List.filter_congr (fun x _ => rowSentiment_isSome x)

/-- Two rows of one survey response: the first carries a category and a
subcategory, the second a category but no subcategory (and so no sentiment
entry). -/
def exRowC1a : FlatRow :=
  { blankRow with
    response_id := "resp-c1"
    question_label := some "COMMENT"
    question_response := some "Food was cold and service slow"
    response_relevancy := some "useful"
    profane := some false
    overall_sentiment_label := some "Negative"
    overall_sentiment_score := some (-2)
    comment_category := some "Food"
    category_sentiment_label := some "Negative"
    category_sentiment_score := some (-(2 : Rat)/5)
    comment_subcategory := some "Quality"
    subcategory_sentiment_label := some "Negative"
    subcategory_sentiment_score := some (-(3 : Rat)/10)
    store_key := some "store-7"
    visit_datetime := some "2024-01-01 12:00:00" }

def exRowC1b : FlatRow :=
  { exRowC1a with
    comment_category := some "Service"
    category_sentiment_label := some "Neutral"
    category_sentiment_score := some 0
    comment_subcategory := none
    subcategory_sentiment_label := none
    subcategory_sentiment_score := none }

theorem grouped_conversion_shape_witness :
    ∃ s, convert_flattened_rows_to_review (exRowC1a :: [exRowC1b]) = Except.ok s
      ∧ s.category_sentiments = some ((exRowC1a :: [exRowC1b]).filterMap rowSentiment)
      ∧ (∀ row : FlatRow, (rowSentiment row).isSome
          = (truthyStr row.comment_category && truthyStr row.comment_subcategory))
      ∧ ((exRowC1a :: [exRowC1b]).filterMap rowSentiment).length
          = ((exRowC1a :: [exRowC1b]).filter
              (fun row => truthyStr row.comment_category
                && truthyStr row.comment_subcategory)).length
      ∧ s.response_id = exRowC1a.response_id
      ∧ s.question_label = exRowC1a.question_label.getD "COMMENT"
      ∧ s.question_response = exRowC1a.question_response.getD ""
      ∧ s.profane = exRowC1a.profane.getD false
      ∧ s.store_id = exRowC1a.store_key
      ∧ s.created_at = exRowC1a.visit_datetime :=
  grouped_conversion_shape exRowC1a [exRowC1b] (by decide)

/-- C2: for a converted group, the summary's `irrelevant` flag is true iff
the first row's relevancy string, lower-cased, contains the substring
"irrelevant" or the substring "nonsense" — a substring match, not an
equality test. -/
theorem irrelevant_flag_substring (first : FlatRow) (rest : List FlatRow)
    (hsame : ∀ r ∈ first :: rest, r.response_id = first.response_id) :
    (convert_flattened_rows_to_review (first :: rest)).toOption.map
        (fun s => s.sentiment_analysis.irrelevantVal)
      = some (strContainsSub (strToLower (first.response_relevancy.getD "")) "irrelevant"
          || strContainsSub (strToLower (first.response_relevancy.getD "")) "nonsense") := by
  rw [convert_cons_eq first rest hsame]
  rfl

def exRowC2pbu : FlatRow :=
  { blankRow with response_id := "resp-c2a", response_relevancy := some "profane but useful" }

def exRowC2noi : FlatRow :=
  { blankRow with response_id := "resp-c2b", response_relevancy := some "Nonsense Or Irrelevant" }

/-- A relevancy value outside the documented enumeration that still
contains "irrelevant" as a substring. -/
def exRowC2sub : FlatRow :=
  { blankRow with
    response_id := "resp-c2c"
    response_relevancy := some "mostly irrelevant chatter" }

theorem irrelevant_flag_substring_witness :
    ((convert_flattened_rows_to_review (exRowC2pbu :: [])).toOption.map
        (fun s => s.sentiment_analysis.irrelevantVal) = some false)
    ∧ ((convert_flattened_rows_to_review (exRowC2noi :: [])).toOption.map
        (fun s => s.sentiment_analysis.irrelevantVal) = some true)
    ∧ ((convert_flattened_rows_to_review (exRowC2sub :: [])).toOption.map
        (fun s => s.sentiment_analysis.irrelevantVal) = some true) := by
  refine ⟨?_, ?_, ?_⟩
  · rw [irrelevant_flag_substring exRowC2pbu [] (by decide)]; decide
  · rw [irrelevant_flag_substring exRowC2noi [] (by decide)]; decide
  · rw [irrelevant_flag_substring exRowC2sub [] (by decide)]; decide

/-- C3: a summary built from source rows has status `recommended` iff some
derived sentiment entry has an absolute category or subcategory score
strictly greater than 1/2, and status `random_sample` otherwise; a summary
built from an evaluation-table row always has status `completed`. -/
theorem status_classification :
    (∀ (first : FlatRow) (rest : List FlatRow),
      (∀ r ∈ first :: rest, r.response_id = first.response_id) →
      (convert_flattened_rows_to_review (first :: rest)).toOption.map ReviewSummary.status
        = some (if ∃ cs ∈ (first :: rest).filterMap rowSentiment,
                  (1 : Rat)/2 < |cs.category_sentiment_score|
                  ∨ (1 : Rat)/2 < |cs.subcategory_sentiment_score|
                then ReviewStatus.recommended else ReviewStatus.random_sample))
    ∧ (∀ db_row : EvalQueryRow,
        (convert_completed_review_to_summary db_row).status = ReviewStatus.completed) := by
  constructor
  · intro first rest hsame
    have hred : (convert_flattened_rows_to_review (first :: rest)).toOption.map
        ReviewSummary.status
        = some (if ((first :: rest).filterMap rowSentiment).any extremeScore
            then ReviewStatus.recommended else ReviewStatus.random_sample) := by
      rw [convert_cons_eq first rest hsame]
      rfl
    rw [hred]
    by_cases hex : ∃ cs ∈ (first :: rest).filterMap rowSentiment,
        (1 : Rat)/2 < |cs.category_sentiment_score|
        ∨ (1 : Rat)/2 < |cs.subcategory_sentiment_score|
    · rw [if_pos ((any_extreme_iff _).mpr hex), if_pos hex]
    · rw [if_neg (fun hb => hex ((any_extreme_iff _).mp hb)), if_neg hex]
  · intro db_row
    rfl

/-- One sentiment row whose category score is 0.51 (= 51/100). -/
def exRowC3hi : FlatRow :=
  { blankRow with
    response_id := "resp-c3a"
    comment_category := some "Service"
    category_sentiment_label := some "Positive"
    category_sentiment_score := some ((51 : Rat)/100)
    comment_subcategory := some "General"
    subcategory_sentiment_label := some "Neutral"
    subcategory_sentiment_score := some 0 }

/-- One sentiment row whose maximal absolute score is exactly 0.5. -/
def exRowC3lo : FlatRow :=
  { blankRow with
    response_id := "resp-c3b"
    comment_category := some "Service"
    category_sentiment_label := some "Positive"
    category_sentiment_score := some ((1 : Rat)/2)
    comment_subcategory := some "General"
    subcategory_sentiment_label := some "Negative"
    subcategory_sentiment_score := some (-(1 : Rat)/2) }

/-- The sentiment entry `rowSentiment` derives from `exRowC3hi`. -/
def csC3hi : CategorySentiment :=
  { category := "Service"
    category_sentiment_label := "Positive"
    category_sentiment_score := (51 : Rat)/100
    subcategory := "General"
    subcategory_sentiment_label := "Neutral"
    subcategory_sentiment_score := 0 }

/-- The sentiment entry `rowSentiment` derives from `exRowC3lo`. -/
def csC3lo : CategorySentiment :=
  { category := "Service"
    category_sentiment_label := "Positive"
    category_sentiment_score := (1 : Rat)/2
    subcategory := "General"
    subcategory_sentiment_label := "Negative"
    subcategory_sentiment_score := -(1 : Rat)/2 }

def exEvalRowC3 : EvalQueryRow :=
  { response_id := "resp-c3c"
    question_label := some "COMMENT"
    question_response := some "great food"
    profane := some false
    rewritten_comment := none
    irrelevant := some false
    human_eval_overall_sentiment_label := some "Positive"
    human_eval_overall_sentiment_score := some 2
    human_eval_category_sentiments := CSJsonField.absent }

theorem status_classification_witness :
    ((convert_flattened_rows_to_review (exRowC3hi :: [])).toOption.map ReviewSummary.status
      = some ReviewStatus.recommended)
    ∧ ((convert_flattened_rows_to_review (exRowC3lo :: [])).toOption.map ReviewSummary.status
      = some ReviewStatus.random_sample)
    ∧ (convert_completed_review_to_summary exEvalRowC3).status = ReviewStatus.completed := by
  have hfmhi : List.filterMap rowSentiment (exRowC3hi :: []) = [csC3hi] := by
    have hcs : rowSentiment exRowC3hi = some csC3hi := rfl
    simp [List.filterMap_cons, hcs]
  have hfmlo : List.filterMap rowSentiment (exRowC3lo :: []) = [csC3lo] := by
    have hcs : rowSentiment exRowC3lo = some csC3lo := rfl
    simp [List.filterMap_cons, hcs]
  refine ⟨?_, ?_, status_classification.2 exEvalRowC3⟩
  · rw [status_classification.1 exRowC3hi [] (by decide)]
    rw [if_pos ?_]
    refine ⟨csC3hi, by simp [hfmhi], Or.inl ?_⟩
    show (1 : Rat)/2 < |((51 : Rat)/100)|
    rw [abs_of_nonneg (by norm_num : (0 : Rat) ≤ (51 : Rat)/100)]
    norm_num
  · rw [status_classification.1 exRowC3lo [] (by decide)]
    rw [if_neg ?_]
    rintro ⟨cs, hmem, hlt⟩
    rw [hfmlo] at hmem
    simp only [List.mem_singleton] at hmem
    subst hmem
    rcases hlt with h | h
    · revert h
      show ¬ ((1 : Rat)/2 < |((1 : Rat)/2)|)
      rw [abs_of_nonneg (by norm_num : (0 : Rat) ≤ (1 : Rat)/2)]
      norm_num
    · revert h
      show ¬ ((1 : Rat)/2 < |(-(1 : Rat)/2)|)
      rw [abs_of_nonpos (by norm_num : (-(1 : Rat)/2) ≤ 0)]
      norm_num

/-- C8: conversion fails exactly when the group is empty (no-rows error) or
contains a row whose response id differs from the first row's
(mixed-response-ids error); every non-empty group sharing one response id
converts without error. -/
theorem conversion_error_conditions :
    (convert_flattened_rows_to_review [] = Except.error "No rows provided")
    ∧ (∀ (first : FlatRow) (rest : List FlatRow),
        ((∃ s, convert_flattened_rows_to_review (first :: rest) = Except.ok s)
          ↔ ∀ r ∈ first :: rest, r.response_id = first.response_id)
        ∧ ((¬ ∀ r ∈ first :: rest, r.response_id = first.response_id) →
            ∃ msg, convert_flattened_rows_to_review (first :: rest) = Except.error msg)) := by
  refine ⟨rfl, fun first rest => ⟨⟨?_, ?_⟩, ?_⟩⟩
  · rintro ⟨s, hs⟩
    by_contra hmix
    have hsome : ((first :: rest).find?
        (fun row => row.response_id != first.response_id)).isSome := by
      rw [List.find?_isSome]
      push_neg at hmix
      obtain ⟨x, hx, hne⟩ := hmix
      exact ⟨x, hx, by simp [hne]⟩
    obtain ⟨bad, hbad⟩ := Option.isSome_iff_exists.mp hsome
    rw [show convert_flattened_rows_to_review (first :: rest)
        = Except.error ("Mixed response IDs in rows: " ++ first.response_id
            ++ " vs " ++ bad.response_id) by
      simp only [convert_flattened_rows_to_review, hbad]] at hs
    exact Except.noConfusion hs
  · intro hsame
    exact ⟨_, convert_cons_eq first rest hsame⟩
  · intro hmix
    have hsome : ((first :: rest).find?
        (fun row => row.response_id != first.response_id)).isSome := by
      rw [List.find?_isSome]
      push_neg at hmix
      obtain ⟨x, hx, hne⟩ := hmix
      exact ⟨x, hx, by simp [hne]⟩
    obtain ⟨bad, hbad⟩ := Option.isSome_iff_exists.mp hsome
    exact ⟨"Mixed response IDs in rows: " ++ first.response_id ++ " vs " ++ bad.response_id,
      by simp only [convert_flattened_rows_to_review, hbad]⟩

def exRowC8a : FlatRow := { blankRow with response_id := "resp-c8" }

def exRowC8b : FlatRow :=
  { blankRow with response_id := "resp-c8", comment_category := some "Other" }

def exRowC8mixed : FlatRow := { blankRow with response_id := "resp-other" }

theorem conversion_error_conditions_witness :
    (∃ s, convert_flattened_rows_to_review (exRowC8a :: [exRowC8b]) = Except.ok s)
    ∧ (∃ msg, convert_flattened_rows_to_review (exRowC8a :: [exRowC8mixed])
        = Except.error msg) :=
  ⟨((conversion_error_conditions.2 exRowC8a [exRowC8b]).1).mpr (by decide),
   (conversion_error_conditions.2 exRowC8a [exRowC8mixed]).2 (by decide)⟩

